import Mathlib

/-!
Verification of the QortexVectorStore adapter (src/vectorstore.ts of
langchain-qortex-js) against its natural-language specification.

The adapter is integration glue: every public method builds one remote
payload, optionally updates one mutable field (the last query id), and
reshapes the remote response.  We embed each method as a pure Lean
function from the adapter state, the method inputs and the remote
response to the new state, the payload sent and the returned value.
JavaScript runtime objects are modelled as ordered association lists of
string keys and JSON-like values; object-literal evaluation with spreads
(later key wins, first occurrence keeps its position) and property
assignment are modelled by setKey and objLit below, and JavaScript
string truthiness (undefined and the empty string are falsy) by
truthyStr.
-/

/-- JSON-like runtime values, as delivered by the MCP transport after
parsing.  Field absence (JavaScript undefined) is modelled by Option
at the use site, not by a JVal constructor. -/
inductive JVal where
  | null
  | bool (b : Bool)
  | num (q : Rat)
  | str (s : String)
  | arr (elems : List JVal)
  | obj (fields : List (String × JVal))

/-- A JavaScript object: insertion-ordered association list. -/
abbrev JObj := List (String × JVal)

/-- Property access on an object: first binding of the key (objects built
by the embedding have unique keys, so this is the JS property read). -/
def lookupMeta : JObj → String → Option JVal
  | [], _ => none
  | kv :: t, k => if kv.1 = k then some kv.2 else lookupMeta t k

/-- Last-wins lookup: the value the key ends up with after evaluating an
object literal whose fields are processed left to right. -/
def jsLookup (m : JObj) (k : String) : Option JVal :=
  lookupMeta m.reverse k

/-- JavaScript property assignment obj[k] = v: replace the binding in
place if the key exists, otherwise append it. -/
def setKey : JObj → String → JVal → JObj
  | [], k, v => [(k, v)]
  | kv :: t, k, v => if kv.1 = k then (k, v) :: t else kv :: setKey t k v

/-- Evaluation of an object literal (fields listed left to right,
spreads already flattened into the field list): later duplicate keys
overwrite the value but keep the first occurrence's position. -/
def objLit (fields : JObj) : JObj :=
  fields.foldl (fun acc kv => setKey acc kv.1 kv.2) []

/-- Rest-destructuring: drop every binding of the key. -/
def eraseKey (m : JObj) (k : String) : JObj :=
  m.filter (fun kv => kv.1 != k)

/-- JavaScript truthiness of a string-or-undefined value: undefined and
the empty string are falsy. -/
def truthyStr : Option String → Bool
  | none => false
  | some s => s != ""

/-- A LangChain document at runtime: page content (a string in typed
code, but the vector-search path can smuggle any JSON value through the
"as string" cast, so we keep JVal), metadata object, optional id. -/
structure Doc where
  pageContent : JVal
  metadata : JObj
  id : Option String

/-- QortexVectorStoreConfig: the three configuration fields read by the
constructor (the transport configuration is out of scope). -/
structure StoreConfig where
  indexName : Option String
  domain : Option String
  feedbackSource : Option String

/-- The adapter's mutable state: three configuration fields fixed by the
constructor plus the last query id captured by text-level search. -/
structure StoreState where
  indexName : String
  domain : String
  feedbackSource : String
  lastQueryId : Option String

/-- The QortexVectorStore constructor: defaults index name, domain and
feedback source; the last query id starts out null. -/
def mkStore (cfg : StoreConfig) : StoreState :=
  { indexName := cfg.indexName.getD "default"
    domain := cfg.domain.getD "default"
    feedbackSource := cfg.feedbackSource.getD "langchain"
    lastQueryId := none }

/-- The lastQueryId getter. -/
def lastQueryIdGet (s : StoreState) : Option String :=
  s.lastQueryId

/-- Payload of the qortex_vector_upsert call.  ids is Option because the
code sends undefined (field absent) when the id list is empty. -/
structure UpsertPayload where
  index_name : String
  vectors : List (List Rat)
  metadata : List JObj
  ids : Option (List String)

/-- Shape of an upsert response: both fields optional on the wire. -/
structure UpsertResponse where
  ids : Option (List String)
  error : Option String

/-- documents.map(doc => doc.id).filter(Boolean): collect the document
ids, dropping undefined and empty-string ids (both falsy). -/
def docIds (docs : List Doc) : List String :=
  docs.filterMap (fun d =>
    match d.id with
    | none => none
    | some s => if s = "" then none else some s)

/-- The per-document upsert metadata entry
\x7b text: doc.pageContent, ...doc.metadata \x7d. -/
def upsertEntry (d : Doc) : JObj :=
  objLit (("text", d.pageContent) :: d.metadata)

/-- addVectors: build the qortex_vector_upsert payload, throw when the
response's error field is truthy, otherwise return the response ids.
The adapter state is returned unchanged (the method assigns no field). -/
def addVectors (s : StoreState) (vectors : List (List Rat)) (docs : List Doc)
    (optIds : Option (List String)) (resp : UpsertResponse) :
    StoreState × UpsertPayload × Except String (Option (List String)) :=
  let ids := optIds.getD (docIds docs)
  (s,
   { index_name := s.indexName
     vectors := vectors
     metadata := docs.map upsertEntry
     ids := if ids.length > 0 then some ids else none },
   if truthyStr resp.error then Except.error (resp.error.getD "")
   else Except.ok resp.ids)

/-- addDocuments: embed the page contents, then delegate to addVectors
with the same documents and options. -/
def addDocuments (embed : List JVal → List (List Rat)) (s : StoreState)
    (docs : List Doc) (optIds : Option (List String)) (resp : UpsertResponse) :
    StoreState × UpsertPayload × Except String (Option (List String)) :=
  addVectors s (embed (docs.map (fun d => d.pageContent))) docs optIds resp

/-- Payload of the qortex_vector_query call. -/
structure VectorQueryPayload where
  index_name : String
  query_vector : List Rat
  top_k : Nat
  filter : Option JObj
  include_vector : Bool

/-- One result item of a vector query response. -/
structure VectorItem where
  id : String
  score : Rat
  metadata : Option JObj

/-- Shape of a vector query response: both fields optional on the wire. -/
structure VectorQueryResponse where
  results : Option (List VectorItem)
  error : Option String

/-- Reshaping of one vector query result item into a document: the
destructuring const \x7b text, ...meta \x7d = item.metadata ?? \x7b\x7d,
page content (text as string) ?? "" (so null and a missing key both
become the empty string, any other value passes through the cast), and
metadata \x7b ...meta, score: item.score \x7d. -/
def vectorItemDoc (item : VectorItem) : Doc :=
  let m := item.metadata.getD []
  { pageContent :=
      match lookupMeta m "text" with
      | none => JVal.str ""
      | some JVal.null => JVal.str ""
      | some v => v
    metadata := objLit (eraseKey m "text" ++ [("score", JVal.num item.score)])
    id := some item.id }

/-- similaritySearchVectorWithScore: build the qortex_vector_query
payload, throw when the response's error field is truthy, otherwise
reshape each result item (in order) into a document/score pair.
The adapter state is returned unchanged. -/
def similaritySearchVectorWithScore (s : StoreState) (query : List Rat)
    (k : Nat) (filter : Option JObj) (resp : VectorQueryResponse) :
    StoreState × VectorQueryPayload × Except String (List (Doc × Rat)) :=
  (s,
   { index_name := s.indexName
     query_vector := query
     top_k := k
     filter := filter
     include_vector := false },
   if truthyStr resp.error then Except.error (resp.error.getD "")
   else Except.ok ((resp.results.getD []).map
     (fun item => (vectorItemDoc item, item.score))))

/-- The two fields of the FilterType record that the text-level search
reads: domains (an array value is truthy even when empty) and
min_confidence (used only when it is a number). -/
structure SearchFilter where
  domains : Option (List String)
  min_confidence : Option Rat

/-- Payload of the qortex_query call. -/
structure QueryPayload where
  context : String
  domains : List String
  top_k : Nat
  min_confidence : Rat
  mode : String

/-- One item of a qortex_query response (QortexQueryItem). -/
structure QueryItem where
  id : String
  content : String
  score : Rat
  domain : String
  node_id : String
  metadata : Option JObj

/-- A rule of a qortex_query response (QortexRule). -/
structure QRule where
  id : String
  text : String
  domain : String
  category : String
  confidence : Rat
  relevance : Rat
  derivation : String
  source_concepts : Option (List String)
  metadata : JObj

/-- Shape of a qortex_query response.  The wire can carry an error
field; the text-level search never reads it. -/
structure QueryResponse where
  items : Option (List QueryItem)
  query_id : Option String
  rules : Option (List QRule)
  error : Option String

/-- Reduction of a rule to \x7b id: r.id, text: r.text,
relevance: r.relevance \x7d. -/
def ruleReduced (r : QRule) : JVal :=
  JVal.obj [("id", JVal.str r.id), ("text", JVal.str r.text),
            ("relevance", JVal.num r.relevance)]

/-- rules.filter(r => r.source_concepts?.includes(nodeId)).map(reduce):
a rule with undefined source_concepts is filtered out (undefined is
falsy). -/
def linkedRules (rules : List QRule) (nodeId : String) : List JVal :=
  (rules.filter (fun r => (r.source_concepts.getD []).contains nodeId)).map
    ruleReduced

/-- The metadata object built for one text-search result item:
\x7b score, domain, node_id, ...item.metadata \x7d, then, when
result.rules?.length is truthy and the linked-rule list is non-empty,
the assignment meta.rules = linkedRules. -/
def textItemMeta (resp : QueryResponse) (item : QueryItem) : JObj :=
  let meta0 := objLit ([("score", JVal.num item.score),
                        ("domain", JVal.str item.domain),
                        ("node_id", JVal.str item.node_id)]
                       ++ item.metadata.getD [])
  match resp.rules with
  | none => meta0
  | some rules =>
      if rules.length ≠ 0 then
        let linked := linkedRules rules item.node_id
        if linked.length > 0 then setKey meta0 "rules" (JVal.arr linked)
        else meta0
      else meta0

/-- similaritySearchWithScore: build the qortex_query payload (domains
from the filter when its domains field is present, otherwise the
configured domain; min_confidence from the filter when numeric,
otherwise 0), overwrite the last query id with result.query_id ?? null,
and reshape each item (in order) into a document/score pair.  The error
field of the response is never inspected. -/
def similaritySearchWithScore (s : StoreState) (q : String) (k : Nat)
    (filter : Option SearchFilter) (resp : QueryResponse) :
    StoreState × QueryPayload × List (Doc × Rat) :=
  ({ s with lastQueryId := resp.query_id },
   { context := q
     domains := (filter.bind (fun f => f.domains)).getD [s.domain]
     top_k := k
     min_confidence := (filter.bind (fun f => f.min_confidence)).getD 0
     mode := "auto" },
   (resp.items.getD []).map (fun item =>
     ({ pageContent := JVal.str item.content
        metadata := textItemMeta resp item
        id := some item.id }, item.score)))

/-- similaritySearch: the score-discarding wrapper over
similaritySearchWithScore. -/
def similaritySearch (s : StoreState) (q : String) (k : Nat)
    (filter : Option SearchFilter) (resp : QueryResponse) :
    StoreState × QueryPayload × List Doc :=
  let r := similaritySearchWithScore s q k filter resp
  (r.1, r.2.1, r.2.2.map (fun p => p.1))

/-- Payload of the qortex_explore call. -/
structure ExplorePayload where
  node_id : String
  depth : Nat

/-- explore: build the qortex_explore payload and return null exactly
when result.node === null (a strictly null node field); any other
response object, including one with the node field absent, is returned
unmodified.  The adapter state is returned unchanged. -/
def explore (s : StoreState) (nodeId : String) (depth : Nat) (resp : JObj) :
    StoreState × ExplorePayload × Option JObj :=
  (s, { node_id := nodeId, depth := depth },
   match lookupMeta resp "node" with
   | some JVal.null => none
   | _ => some resp)

/-- Options of getRules. -/
structure RulesOptions where
  domains : Option (List String)
  conceptIds : Option (List String)
  categories : Option (List String)
  includeDerived : Option Bool
  minConfidence : Option Rat

/-- Payload of the qortex_rules call. -/
structure RulesPayload where
  domains : Option (List String)
  concept_ids : Option (List String)
  categories : Option (List String)
  include_derived : Bool
  min_confidence : Rat

/-- getRules: build the qortex_rules payload (include_derived defaults
to true, min_confidence to 0) and return the response verbatim.  The
adapter state is returned unchanged. -/
def getRules (s : StoreState) (o : RulesOptions) (resp : JObj) :
    StoreState × RulesPayload × JObj :=
  (s,
   { domains := o.domains
     concept_ids := o.conceptIds
     categories := o.categories
     include_derived := o.includeDerived.getD true
     min_confidence := o.minConfidence.getD 0 },
   resp)

/-- Payload of the qortex_feedback call. -/
structure FeedbackPayload where
  query_id : String
  outcomes : List (String × String)
  source : String

/-- feedback: when the last query id is falsy (null, or the empty
string) return null without issuing any remote call (payload none);
otherwise issue one call carrying the last query id, the outcome
mapping and the configured source, and return the response verbatim.
The adapter state is returned unchanged. -/
def feedback (s : StoreState) (outcomes : List (String × String))
    (resp : JObj) : StoreState × Option FeedbackPayload × Option JObj :=
  if truthyStr s.lastQueryId then
    (s,
     some { query_id := s.lastQueryId.getD ""
            outcomes := outcomes
            source := s.feedbackSource },
     some resp)
  else (s, none, none)

lemma lookupMeta_append (a b : JObj) (k : String) :
    lookupMeta (a ++ b) k
      = match lookupMeta a k with
        | some v => some v
        | none => lookupMeta b k := by
  induction a with
  | nil => simp [lookupMeta]
  | cons kv t ih =>
      by_cases h : kv.1 = k
      · simp [lookupMeta, h]
      · simp [lookupMeta, h, ih]

lemma jsLookup_cons (kv : String × JVal) (t : JObj) (k : String) :
    jsLookup (kv :: t) k
      = match jsLookup t k with
        | some v => some v
        | none => if kv.1 = k then some kv.2 else none := by
  unfold jsLookup
  rw [List.reverse_cons, lookupMeta_append]
  cases h : lookupMeta t.reverse k <;> simp [h, lookupMeta]

lemma jsLookup_append (a b : JObj) (k : String) :
    jsLookup (a ++ b) k
      = match jsLookup b k with
        | some v => some v
        | none => jsLookup a k := by
  unfold jsLookup
  rw [List.reverse_append, lookupMeta_append]

lemma lookupMeta_setKey (m : JObj) (k : String) (v : JVal) (k' : String) :
    lookupMeta (setKey m k v) k' = if k = k' then some v else lookupMeta m k' := by
  induction m with
  | nil => simp [setKey, lookupMeta]
  | cons kv t ih =>
      by_cases h : kv.1 = k
      · by_cases h2 : k = k' <;> simp [setKey, lookupMeta, h, h2]
      · by_cases h2 : kv.1 = k' <;> by_cases h3 : k = k' <;>
          simp_all [setKey, lookupMeta]

lemma lookupMeta_foldl_setKey (fields : JObj) :
    ∀ (init : JObj) (k : String),
    lookupMeta (fields.foldl (fun acc kv => setKey acc kv.1 kv.2) init) k
      = match jsLookup fields k with
        | some v => some v
        | none => lookupMeta init k := by
  induction fields with
  | nil => intro init k; simp [jsLookup, lookupMeta]
  | cons kv t ih =>
      intro init k
      rw [List.foldl_cons, ih, lookupMeta_setKey, jsLookup_cons kv t k]
      cases h : jsLookup t k <;> by_cases h2 : kv.1 = k <;> simp [h, h2]

lemma lookupMeta_objLit (fields : JObj) (k : String) :
    lookupMeta (objLit fields) k = jsLookup fields k := by
  unfold objLit
  rw [lookupMeta_foldl_setKey]
  cases h : jsLookup fields k <;> simp [h, lookupMeta]

lemma jsLookup_eraseKey_self (m : JObj) (k : String) :
    jsLookup (eraseKey m k) k = none := by
  induction m with
  | nil => rfl
  | cons kv t ih =>
      by_cases h : kv.1 = k
      · simpa [eraseKey, List.filter_cons, h] using ih
      · simp only [eraseKey, List.filter_cons] at ih ⊢
        simp only [h, bne_iff_ne, ne_eq, not_false_iff, if_pos, ite_true]
        rw [jsLookup_cons]
        cases hj : jsLookup (List.filter (fun kv => kv.1 != k) t) k <;>
          simp_all [h]

lemma jsLookup_eraseKey_ne (m : JObj) (k k' : String) (h : k' ≠ k) :
    jsLookup (eraseKey m k) k' = jsLookup m k' := by
  induction m with
  | nil => rfl
  | cons kv t ih =>
      by_cases h2 : kv.1 = k
      · rw [show eraseKey (kv :: t) k = eraseKey t k by
            simp [eraseKey, List.filter_cons, h2]]
        rw [ih, jsLookup_cons]
        cases hj : jsLookup t k' <;> simp [hj, h2, Ne.symm h]
      · rw [show eraseKey (kv :: t) k = kv :: eraseKey t k by
            simp [eraseKey, List.filter_cons, h2]]
        rw [jsLookup_cons, jsLookup_cons, ih]

lemma map_congr_mem {α β : Type} (l : List α) (f g : α → β)
    (h : ∀ a ∈ l, f a = g a) : l.map f = l.map g := by
  induction l with
  | nil => rfl
  | cons a t ih =>
      simp only [List.map_cons, h a (List.mem_cons_self a t)]
      rw [ih (fun x hx => h x (List.mem_cons_of_mem a hx))]

lemma upsertEntry_lookup_text (d : Doc)
    (h : jsLookup d.metadata "text" = none) :
    lookupMeta (upsertEntry d) "text" = some d.pageContent := by
  unfold upsertEntry
  rw [lookupMeta_objLit, jsLookup_cons, h]
  rfl

lemma upsertEntry_lookup_text_override (d : Doc) (tv : JVal)
    (h : jsLookup d.metadata "text" = some tv) :
    lookupMeta (upsertEntry d) "text" = some tv := by
  unfold upsertEntry
  rw [lookupMeta_objLit, jsLookup_cons, h]

lemma upsertEntry_lookup_ne (d : Doc) (key : String) (h : key ≠ "text") :
    lookupMeta (upsertEntry d) key = jsLookup d.metadata key := by
  unfold upsertEntry
  rw [lookupMeta_objLit, jsLookup_cons]
  cases hj : jsLookup d.metadata key <;> simp [hj, Ne.symm h]

lemma docIds_eq_nil : ∀ (docs : List Doc),
    (∀ d ∈ docs, d.id = none ∨ d.id = some "") → docIds docs = [] := by
  intro docs
  induction docs with
  | nil => intro _; rfl
  | cons d t ih =>
      intro h
      have ht : docIds t = [] :=
        ih (fun x hx => h x (List.mem_cons_of_mem d hx))
      simp only [docIds, List.filterMap_cons]
      rcases h d (List.mem_cons_self d t) with h1 | h1 <;>
        simp only [h1] <;> simpa [docIds] using ht

lemma vectorItemDoc_meta_text (item : VectorItem) :
    lookupMeta (vectorItemDoc item).metadata "text" = none := by
  show lookupMeta (objLit (eraseKey (item.metadata.getD []) "text"
      ++ [("score", JVal.num item.score)])) "text" = none
  rw [lookupMeta_objLit, jsLookup_append]
  have h1 : jsLookup [("score", JVal.num item.score)] "text" = none := by
    simp [jsLookup, lookupMeta]
  simp [h1, jsLookup_eraseKey_self]

lemma vectorItemDoc_meta_ne (item : VectorItem) (key : String)
    (h1 : key ≠ "text") (h2 : key ≠ "score") :
    lookupMeta (vectorItemDoc item).metadata key
      = jsLookup (item.metadata.getD []) key := by
  show lookupMeta (objLit (eraseKey (item.metadata.getD []) "text"
      ++ [("score", JVal.num item.score)])) key
      = jsLookup (item.metadata.getD []) key
  rw [lookupMeta_objLit, jsLookup_append]
  have hs : jsLookup [("score", JVal.num item.score)] key = none := by
    simp [jsLookup, lookupMeta, Ne.symm h2]
  rw [hs, jsLookup_eraseKey_ne _ _ _ h1]

lemma vectorItemDoc_content (item : VectorItem) (t : String)
    (h : lookupMeta (item.metadata.getD []) "text" = some (JVal.str t)) :
    (vectorItemDoc item).pageContent = JVal.str t := by
  simp [vectorItemDoc, h]

lemma textItemMeta_meta0_rules (item : QueryItem) :
    lookupMeta (objLit (("score", JVal.num item.score)
        :: ("domain", JVal.str item.domain)
        :: ("node_id", JVal.str item.node_id)
        :: item.metadata.getD [])) "rules"
      = jsLookup (item.metadata.getD []) "rules" := by
  rw [show (("score", JVal.num item.score) :: ("domain", JVal.str item.domain)
        :: ("node_id", JVal.str item.node_id) :: item.metadata.getD [])
      = [("score", JVal.num item.score), ("domain", JVal.str item.domain),
         ("node_id", JVal.str item.node_id)] ++ item.metadata.getD [] from rfl]
  rw [lookupMeta_objLit, jsLookup_append]
  cases hj : jsLookup (item.metadata.getD []) "rules" <;>
    simp [hj, jsLookup, lookupMeta]

lemma textItemMeta_rules (resp : QueryResponse) (item : QueryItem) :
    lookupMeta (textItemMeta resp item) "rules"
      = if (linkedRules (resp.rules.getD []) item.node_id).length > 0 then
          some (JVal.arr (linkedRules (resp.rules.getD []) item.node_id))
        else jsLookup (item.metadata.getD []) "rules" := by
  unfold textItemMeta
  cases hr : resp.rules with
  | none =>
      simp [linkedRules, textItemMeta_meta0_rules]
  | some rules =>
      by_cases hlen : rules.length = 0
      · have : rules = [] := List.length_eq_zero.mp hlen
        subst this
        simp [linkedRules, textItemMeta_meta0_rules]
      · simp only [ne_eq, hlen, not_false_iff, if_pos, ite_true]
        by_cases hl : (linkedRules rules item.node_id).length > 0
        · simp only [hl, if_pos, ite_true, Option.getD_some]
          rw [lookupMeta_setKey]
          simp
        · simp only [hl, if_neg, ite_false, Option.getD_some]
          simpa using textItemMeta_meta0_rules item

/-- The list a successful search call returns (empty for a thrown
error); lets theorems speak about the returned pairs directly. -/
def okList (e : Except String (List (Doc × Rat))) : List (Doc × Rat) :=
  match e with
  | Except.ok l => l
  | Except.error _ => []

/-- C6 counterexample: with the ids option omitted but a document that
carries its own id "d1", the upsert payload's ids field is present
(some ["d1"]), not absent — the claim's "for every list of documents"
fails. -/
theorem c6_counterexample :
    (addVectors (mkStore { indexName := none, domain := none, feedbackSource := none })
        [[(1 : Rat)]]
        [{ pageContent := JVal.str "hello", metadata := [], id := some "d1" }]
        none { ids := some ["d1"], error := none }).2.1.ids
      = some ["d1"] := rfl

/-- C6 (amended): when the ids option is omitted and no document carries
a truthy (non-empty) identifier, the upsert payload of addVectors (and
of addDocuments, which delegates to it) has no ids field at all. -/
theorem c6_amended_ids_field_absent :
    ∀ (s : StoreState) (vecs : List (List Rat)) (docs : List Doc)
      (resp : UpsertResponse) (embed : List JVal → List (List Rat)),
      (∀ d ∈ docs, d.id = none ∨ d.id = some "") →
      (addVectors s vecs docs none resp).2.1.ids = none
    ∧ (addDocuments embed s docs none resp).2.1.ids = none := by
  intro s vecs docs resp embed h
  have hd : docIds docs = [] := docIds_eq_nil docs h
  constructor
  · simp [addVectors, hd]
  · simp [addDocuments, addVectors, hd]

/-- C6 witness: a single id-less document; the payload carries no ids
field on either insert path. -/
theorem c6_amended_ids_field_absent_witness :
    (addVectors (mkStore { indexName := none, domain := none, feedbackSource := none })
        [] [{ pageContent := JVal.str "x", metadata := [], id := none }]
        none { ids := none, error := none }).2.1.ids = none
  ∧ (addDocuments (fun _ => [])
        (mkStore { indexName := none, domain := none, feedbackSource := none })
        [{ pageContent := JVal.str "x", metadata := [], id := none }]
        none { ids := none, error := none }).2.1.ids = none :=
  c6_amended_ids_field_absent _ _ _ _ _
    (fun d hd => by rw [List.mem_singleton] at hd; subst hd; exact Or.inl rfl)

/-- C7: explore returns null when the response's node field is the
strict null value (the service's encoding of a node that does not
exist), and returns the response object unmodified — node, edges,
neighbors and rules exactly as supplied — when the node field holds any
non-null value. -/
theorem c7_explore_null_or_verbatim :
    ∀ (s : StoreState) (nodeId : String) (depth : Nat) (resp : JObj),
      (lookupMeta resp "node" = some JVal.null →
        (explore s nodeId depth resp).2.2 = none)
    ∧ (∀ v, lookupMeta resp "node" = some v → v ≠ JVal.null →
        (explore s nodeId depth resp).2.2 = some resp) := by
  intro s nodeId depth resp
  constructor
  · intro h
    simp [explore, h]
  · intro v h hv
    have heq : (explore s nodeId depth resp).2.2
        = match lookupMeta resp "node" with
          | some JVal.null => none
          | _ => some resp := rfl
    rw [heq, h]
    cases v with
    | null => exact absurd rfl hv
    | bool b => rfl
    | num q => rfl
    | str s2 => rfl
    | arr es => rfl
    | obj fs => rfl

/-- C7 witness: a null-node response yields null; a response with a
real node comes back verbatim. -/
theorem c7_explore_null_or_verbatim_witness :
    (explore (mkStore { indexName := none, domain := none, feedbackSource := none })
        "missing" 1 [("node", JVal.null)]).2.2 = none
  ∧ (explore (mkStore { indexName := none, domain := none, feedbackSource := none })
        "sec" 1 [("node", JVal.obj [("id", JVal.str "sec")]),
                 ("edges", JVal.arr []), ("neighbors", JVal.arr []),
                 ("rules", JVal.arr [])]).2.2
      = some [("node", JVal.obj [("id", JVal.str "sec")]),
              ("edges", JVal.arr []), ("neighbors", JVal.arr []),
              ("rules", JVal.arr [])] :=
  ⟨(c7_explore_null_or_verbatim _ "missing" 1 _).1 rfl,
   (c7_explore_null_or_verbatim _ "sec" 1 _).2
     (JVal.obj [("id", JVal.str "sec")]) rfl
     (fun hc => JVal.noConfusion hc)⟩

/-- C10: explore returns null only when the node field is strictly
null, and a response whose node field is entirely absent is returned
raw rather than as null. -/
theorem c10_explore_strict_null_check :
    (∀ (s : StoreState) (nodeId : String) (depth : Nat) (resp : JObj),
        (explore s nodeId depth resp).2.2 = none →
        lookupMeta resp "node" = some JVal.null)
  ∧ (explore (mkStore { indexName := none, domain := none, feedbackSource := none })
        "n" 1 [("edges", JVal.arr []), ("neighbors", JVal.arr [])]).2.2
      = some [("edges", JVal.arr []), ("neighbors", JVal.arr [])] := by
  constructor
  · intro s nodeId depth resp h
    have heq : (explore s nodeId depth resp).2.2
        = match lookupMeta resp "node" with
          | some JVal.null => none
          | _ => some resp := rfl
    rw [heq] at h
    cases hl : lookupMeta resp "node" with
    | none => rw [hl] at h; simp at h
    | some v =>
        cases v with
        | null => rfl
        | bool b => rw [hl] at h; simp at h
        | num q => rw [hl] at h; simp at h
        | str s2 => rw [hl] at h; simp at h
        | arr es => rw [hl] at h; simp at h
        | obj fs => rw [hl] at h; simp at h
  · rfl

/-- C10 witness: instantiating the only-if direction at a response
whose node field is explicitly null. -/
theorem c10_explore_strict_null_check_witness :
    lookupMeta [("node", JVal.null)] "node" = some JVal.null :=
  c10_explore_strict_null_check.1
    (mkStore { indexName := none, domain := none, feedbackSource := none })
    "n" 1 [("node", JVal.null)] rfl

/-- C8: the last query id is written only by text-level search, which
overwrites it with the response's query identifier (null when absent)
and makes it readable through the lastQueryId getter; addVectors,
addDocuments, vector similarity search, explore, getRules and feedback
leave the whole adapter state — configuration fields included —
unchanged. -/
theorem c8_last_query_id_frame :
    ∀ (s : StoreState) (q : String) (k : Nat) (f : Option SearchFilter)
      (resp : QueryResponse) (vecs : List (List Rat)) (docs : List Doc)
      (optIds : Option (List String)) (uresp : UpsertResponse)
      (embed : List JVal → List (List Rat)) (qv : List Rat) (k2 : Nat)
      (vf : Option JObj) (vresp : VectorQueryResponse) (nid : String)
      (depth : Nat) (eresp : JObj) (ropts : RulesOptions) (rresp : JObj)
      (outcomes : List (String × String)) (fresp : JObj),
      (similaritySearchWithScore s q k f resp).1
          = { s with lastQueryId := resp.query_id }
    ∧ lastQueryIdGet (similaritySearchWithScore s q k f resp).1 = resp.query_id
    ∧ (similaritySearch s q k f resp).1
          = { s with lastQueryId := resp.query_id }
    ∧ (addVectors s vecs docs optIds uresp).1 = s
    ∧ (addDocuments embed s docs optIds uresp).1 = s
    ∧ (similaritySearchVectorWithScore s qv k2 vf vresp).1 = s
    ∧ (explore s nid depth eresp).1 = s
    ∧ (getRules s ropts rresp).1 = s
    ∧ (feedback s outcomes fresp).1 = s := by
  intro s q k f resp vecs docs optIds uresp embed qv k2 vf vresp nid depth
    eresp ropts rresp outcomes fresp
  refine ⟨rfl, rfl, rfl, rfl, rfl, rfl, rfl, rfl, ?_⟩
  cases h : truthyStr s.lastQueryId <;> simp [feedback, h]

/-- C9: when a document's own metadata already binds the key "text",
the upsert payload entry for that document carries the metadata's value
under "text" (the spread overrides the folded-in content), so the page
content does not appear under the "text" key whenever it differs from
that value. -/
theorem c9_metadata_text_overrides_content :
    ∀ (s : StoreState) (vecs : List (List Rat)) (docs : List Doc)
      (optIds : Option (List String)) (resp : UpsertResponse)
      (i : Nat) (d : Doc) (tv : JVal),
      docs[i]? = some d →
      jsLookup d.metadata "text" = some tv →
      ((addVectors s vecs docs optIds resp).2.1.metadata[i]?).map
          (fun e => lookupMeta e "text") = some (some tv)
    ∧ (tv ≠ d.pageContent →
        ((addVectors s vecs docs optIds resp).2.1.metadata[i]?).map
            (fun e => lookupMeta e "text") ≠ some (some d.pageContent)) := by
  intro s vecs docs optIds resp i d tv hi ht
  have hm : (addVectors s vecs docs optIds resp).2.1.metadata
      = docs.map upsertEntry := rfl
  have hmain : ((addVectors s vecs docs optIds resp).2.1.metadata[i]?).map
      (fun e => lookupMeta e "text") = some (some tv) := by
    rw [hm, List.getElem?_map, hi]
    simp [upsertEntry_lookup_text_override d tv ht]
  refine ⟨hmain, ?_⟩
  intro hne hc
  rw [hmain] at hc
  simp only [Option.some.injEq] at hc
  exact hne hc

/-- C9 witness: a document whose metadata maps "text" to "meta-text"
while its page content is "content"; the payload entry's "text" value
is the metadata's, not the content. -/
theorem c9_metadata_text_overrides_content_witness :
    ((addVectors (mkStore { indexName := none, domain := none, feedbackSource := none })
        [] [{ pageContent := JVal.str "content",
              metadata := [("text", JVal.str "meta-text")], id := none }]
        none { ids := none, error := none }).2.1.metadata[0]?).map
        (fun e => lookupMeta e "text") = some (some (JVal.str "meta-text"))
  ∧ ((addVectors (mkStore { indexName := none, domain := none, feedbackSource := none })
        [] [{ pageContent := JVal.str "content",
              metadata := [("text", JVal.str "meta-text")], id := none }]
        none { ids := none, error := none }).2.1.metadata[0]?).map
        (fun e => lookupMeta e "text") ≠ some (some (JVal.str "content")) := by
  have h := c9_metadata_text_overrides_content
    (mkStore { indexName := none, domain := none, feedbackSource := none })
    [] [{ pageContent := JVal.str "content",
          metadata := [("text", JVal.str "meta-text")], id := none }]
    none { ids := none, error := none } 0
    { pageContent := JVal.str "content",
      metadata := [("text", JVal.str "meta-text")], id := none }
    (JVal.str "meta-text") rfl rfl
  exact ⟨h.1, h.2 (fun hc => JVal.noConfusion hc (fun hs => by simp at hs))⟩

/-- C1 counterexample: the text-level search does not inspect the error
field — a response carrying error "boom" still yields a normal result
list instead of a thrown error — and the truthiness check means an
upsert response carrying the error field with the empty-string message
returns normally as well. -/
theorem c1_counterexample :
    (similaritySearchWithScore
        (mkStore { indexName := none, domain := none, feedbackSource := none })
        "q" 4 none
        { items := some [{ id := "i1", content := "c", score := 1,
                           domain := "d", node_id := "n", metadata := none }],
          query_id := some "qid", rules := none, error := some "boom" }).2.2
      = [({ pageContent := JVal.str "c",
            metadata := [("score", JVal.num 1), ("domain", JVal.str "d"),
                         ("node_id", JVal.str "n")],
            id := some "i1" }, 1)]
  ∧ (addVectors (mkStore { indexName := none, domain := none, feedbackSource := none })
        [] [] none { ids := some ["a"], error := some "" }).2.2
      = Except.ok (some ["a"]) :=
  ⟨rfl, rfl⟩

/-- C1 (amended): a response whose error field is a non-empty string
makes addVectors and similaritySearchVectorWithScore fail with exactly
that message; the text-level similaritySearchWithScore never reads the
error field (its behaviour is unchanged when the field is removed). -/
theorem c1_amended_error_taxonomy :
    (∀ (s : StoreState) (vecs : List (List Rat)) (docs : List Doc)
        (optIds : Option (List String)) (resp : UpsertResponse) (msg : String),
        resp.error = some msg → msg ≠ "" →
        (addVectors s vecs docs optIds resp).2.2 = Except.error msg)
  ∧ (∀ (s : StoreState) (qv : List Rat) (k : Nat) (f : Option JObj)
        (resp : VectorQueryResponse) (msg : String),
        resp.error = some msg → msg ≠ "" →
        (similaritySearchVectorWithScore s qv k f resp).2.2 = Except.error msg)
  ∧ (∀ (s : StoreState) (q : String) (k : Nat) (f : Option SearchFilter)
        (resp : QueryResponse),
        similaritySearchWithScore s q k f resp
          = similaritySearchWithScore s q k f
              { items := resp.items, query_id := resp.query_id,
                rules := resp.rules, error := none }) := by
  refine ⟨?_, ?_, ?_⟩
  · intro s vecs docs optIds resp msg he hm
    simp [addVectors, truthyStr, he, hm]
  · intro s qv k f resp msg he hm
    simp [similaritySearchVectorWithScore, truthyStr, he, hm]
  · intro s q k f resp
    rfl

/-- C1 witness: concrete error-bearing responses on the two checking
paths fail with the service-provided message. -/
theorem c1_amended_error_taxonomy_witness :
    (addVectors (mkStore { indexName := none, domain := none, feedbackSource := none })
        [] [] none { ids := none, error := some "Dimension mismatch" }).2.2
      = Except.error "Dimension mismatch"
  ∧ (similaritySearchVectorWithScore
        (mkStore { indexName := none, domain := none, feedbackSource := none })
        [] 1 none { results := none, error := some "Index not found" }).2.2
      = Except.error "Index not found"
  ∧ similaritySearchWithScore
        (mkStore { indexName := none, domain := none, feedbackSource := none })
        "q" 4 none { items := none, query_id := none, rules := none,
                     error := some "boom" }
      = similaritySearchWithScore
          (mkStore { indexName := none, domain := none, feedbackSource := none })
          "q" 4 none { items := none, query_id := none, rules := none,
                       error := none } :=
  ⟨c1_amended_error_taxonomy.1 _ _ _ _ _ "Dimension mismatch" rfl (by decide),
   c1_amended_error_taxonomy.2.1 _ _ _ _ _ "Index not found" rfl (by decide),
   c1_amended_error_taxonomy.2.2 _ "q" 4 none
     { items := none, query_id := none, rules := none, error := some "boom" }⟩

/-- C2 counterexample: a text-level search whose response carries the
empty-string query identifier does capture it (lastQueryId becomes
some ""), yet a subsequent feedback call returns null and issues no
remote call, contradicting "after a text-level search, feedback issues
exactly one remote call with the last captured query identifier". -/
theorem c2_counterexample :
    (similaritySearchWithScore
        (mkStore { indexName := none, domain := none, feedbackSource := none })
        "auth" 4 none
        { items := some [], query_id := some "", rules := none,
          error := none }).1.lastQueryId = some ""
  ∧ feedback
      (similaritySearchWithScore
        (mkStore { indexName := none, domain := none, feedbackSource := none })
        "auth" 4 none
        { items := some [], query_id := some "", rules := none,
          error := none }).1
      [("i1", "accepted")] [("status", JVal.str "recorded")]
      = ((similaritySearchWithScore
            (mkStore { indexName := none, domain := none, feedbackSource := none })
            "auth" 4 none
            { items := some [], query_id := some "", rules := none,
              error := none }).1,
         none, none) :=
  ⟨rfl, rfl⟩

/-- C2 (amended): when the stored query identifier is absent or empty
(in particular before any text-level search) feedback returns null and
issues no remote call; after a text-level search that captured a
non-empty query identifier, feedback issues one remote call carrying
that identifier, the supplied outcome mapping and the configured
feedback source, and returns the service acknowledgment unmodified. -/
theorem c2_amended_feedback_gating :
    (∀ (s : StoreState) (outcomes : List (String × String)) (resp : JObj),
        s.lastQueryId = none ∨ s.lastQueryId = some "" →
        feedback s outcomes resp = (s, none, none))
  ∧ (∀ (s : StoreState) (q : String) (k : Nat) (f : Option SearchFilter)
        (qresp : QueryResponse) (qid : String)
        (outcomes : List (String × String)) (fresp : JObj),
        qresp.query_id = some qid → qid ≠ "" →
        feedback (similaritySearchWithScore s q k f qresp).1 outcomes fresp
          = ((similaritySearchWithScore s q k f qresp).1,
             some { query_id := qid, outcomes := outcomes,
                    source := s.feedbackSource },
             some fresp)) := by
  constructor
  · intro s outcomes resp h
    rcases h with h | h <;> simp [feedback, truthyStr, h]
  · intro s q k f qresp qid outcomes fresp hq hne
    have h1 : (similaritySearchWithScore s q k f qresp).1.lastQueryId
        = some qid := by
      simp [similaritySearchWithScore, hq]
    simp [feedback, truthyStr, h1, hne, similaritySearchWithScore, hq]

/-- C2 witness: feedback on a fresh store is a null no-op; after a
search that returned query id "q-abc", feedback submits exactly that
id with the outcomes and the default source label. -/
theorem c2_amended_feedback_gating_witness :
    feedback (mkStore { indexName := none, domain := none, feedbackSource := none })
        [("i1", "accepted")] []
      = (mkStore { indexName := none, domain := none, feedbackSource := none },
         none, none)
  ∧ feedback
      (similaritySearchWithScore
        (mkStore { indexName := none, domain := none, feedbackSource := none })
        "auth" 2 none
        { items := some [], query_id := some "q-abc", rules := none,
          error := none }).1
      [("d1", "accepted")] [("status", JVal.str "recorded")]
      = ((similaritySearchWithScore
            (mkStore { indexName := none, domain := none, feedbackSource := none })
            "auth" 2 none
            { items := some [], query_id := some "q-abc", rules := none,
              error := none }).1,
         some { query_id := "q-abc", outcomes := [("d1", "accepted")],
                source := "langchain" },
         some [("status", JVal.str "recorded")]) :=
  ⟨c2_amended_feedback_gating.1 _ _ _ (Or.inl rfl),
   c2_amended_feedback_gating.2 _ "auth" 2 none _ "q-abc" _ _ rfl (by decide)⟩

/-- C3 counterexample: the response carries no rules at all, so the
single result has no matching rule, yet its metadata still has a
"rules" key — inherited from the item's own service metadata through
the spread — contradicting "every result with no matching rule has no
rules key". -/
theorem c3_counterexample :
    ((similaritySearchWithScore
        (mkStore { indexName := none, domain := none, feedbackSource := none })
        "q" 4 none
        { items := some [{ id := "i1", content := "c", score := 1,
                           domain := "d", node_id := "n1",
                           metadata := some [("rules", JVal.str "keep")] }],
          query_id := none, rules := none, error := none }).2.2.map
        (fun p => lookupMeta p.1.metadata "rules"))
      = [some (JVal.str "keep")] := rfl

/-- C3 (amended): each result whose node id appears in some rule's
source-concepts list carries, under its metadata "rules" key, exactly
the matching rules reduced to id/text/relevance in the order the
service listed them; a result with no matching rule carries under
"rules" whatever value its own service metadata bound to that key
(nothing when that key is absent). -/
theorem c3_amended_rules_attachment :
    ∀ (s : StoreState) (q : String) (k : Nat) (f : Option SearchFilter)
      (resp : QueryResponse),
      (similaritySearchWithScore s q k f resp).2.2.map
          (fun p => lookupMeta p.1.metadata "rules")
        = (resp.items.getD []).map (fun item =>
            if (linkedRules (resp.rules.getD []) item.node_id).length > 0 then
              some (JVal.arr (linkedRules (resp.rules.getD []) item.node_id))
            else jsLookup (item.metadata.getD []) "rules") := by
  intro s q k f resp
  have hout : (similaritySearchWithScore s q k f resp).2.2
      = (resp.items.getD []).map (fun item =>
          ({ pageContent := JVal.str item.content,
             metadata := textItemMeta resp item,
             id := some item.id }, item.score)) := rfl
  rw [hout, List.map_map]
  exact map_congr_mem _ _ _ (fun item _ => textItemMeta_rules resp item)

/-- C4: inserting N vectors with N explicit non-empty identifiers sends
exactly those identifiers, and — when the service confirms them with a
non-error response echoing the ids — returns exactly those identifiers;
the payload's metadata array has one entry per document, each entry
binding "text" to the document's content and every original metadata
key to its original value (documents whose metadata does not itself use
the "text" key). -/
theorem c4_upsert_roundtrip :
    ∀ (s : StoreState) (vecs : List (List Rat)) (docs : List Doc)
      (ids : List String) (resp : UpsertResponse),
      ids ≠ [] →
      (∀ d ∈ docs, jsLookup d.metadata "text" = none) →
      resp.error = none →
      resp.ids = some ids →
      (addVectors s vecs docs (some ids) resp).2.1.ids = some ids
    ∧ (addVectors s vecs docs (some ids) resp).2.2 = Except.ok (some ids)
    ∧ (addVectors s vecs docs (some ids) resp).2.1.metadata.length
        = docs.length
    ∧ (addVectors s vecs docs (some ids) resp).2.1.metadata.map
          (fun e => lookupMeta e "text")
        = docs.map (fun d => some d.pageContent)
    ∧ ∀ (key : String), key ≠ "text" →
        (addVectors s vecs docs (some ids) resp).2.1.metadata.map
            (fun e => lookupMeta e key)
          = docs.map (fun d => jsLookup d.metadata key) := by
  intro s vecs docs ids resp hne hmeta herr hids
  have hm : (addVectors s vecs docs (some ids) resp).2.1.metadata
      = docs.map upsertEntry := rfl
  refine ⟨?_, ?_, ?_, ?_, ?_⟩
  · simp [addVectors, List.length_pos.mpr hne]
  · simp [addVectors, truthyStr, herr, hids]
  · rw [hm, List.length_map]
  · rw [hm, List.map_map]
    exact map_congr_mem _ _ _
      (fun d hd => upsertEntry_lookup_text d (hmeta d hd))
  · intro key hkey
    rw [hm, List.map_map]
    exact map_congr_mem _ _ _
      (fun d _ => upsertEntry_lookup_ne d key hkey)

/-- C4 witness: one document with id "v1"; the payload echoes the id,
the call returns it, and the metadata entry folds the content under
"text" next to the original "source" key. -/
theorem c4_upsert_roundtrip_witness :
    (addVectors (mkStore { indexName := none, domain := none, feedbackSource := none })
        [[(1 : Rat)]]
        [{ pageContent := JVal.str "OAuth2 auth",
           metadata := [("source", JVal.str "docs")], id := none }]
        (some ["v1"]) { ids := some ["v1"], error := none }).2.1.ids = some ["v1"]
  ∧ (addVectors (mkStore { indexName := none, domain := none, feedbackSource := none })
        [[(1 : Rat)]]
        [{ pageContent := JVal.str "OAuth2 auth",
           metadata := [("source", JVal.str "docs")], id := none }]
        (some ["v1"]) { ids := some ["v1"], error := none }).2.2
      = Except.ok (some ["v1"])
  ∧ (addVectors (mkStore { indexName := none, domain := none, feedbackSource := none })
        [[(1 : Rat)]]
        [{ pageContent := JVal.str "OAuth2 auth",
           metadata := [("source", JVal.str "docs")], id := none }]
        (some ["v1"]) { ids := some ["v1"], error := none }).2.1.metadata.map
        (fun e => lookupMeta e "text")
      = [some (JVal.str "OAuth2 auth")]
  ∧ (addVectors (mkStore { indexName := none, domain := none, feedbackSource := none })
        [[(1 : Rat)]]
        [{ pageContent := JVal.str "OAuth2 auth",
           metadata := [("source", JVal.str "docs")], id := none }]
        (some ["v1"]) { ids := some ["v1"], error := none }).2.1.metadata.map
        (fun e => lookupMeta e "source")
      = [some (JVal.str "docs")] := by
  have h := c4_upsert_roundtrip
    (mkStore { indexName := none, domain := none, feedbackSource := none })
    [[(1 : Rat)]]
    [{ pageContent := JVal.str "OAuth2 auth",
       metadata := [("source", JVal.str "docs")], id := none }]
    ["v1"] { ids := some ["v1"], error := none }
    (by decide)
    (fun d hd => by rw [List.mem_singleton] at hd; subst hd; rfl)
    rfl rfl
  exact ⟨h.1, h.2.1, (h.2.2.2.1).trans rfl,
    (h.2.2.2.2 "source" (by decide)).trans rfl⟩

/-- C5: on a non-error response, vector similarity search returns
normally with one pair per result item in the service's order; each
pair carries that item's score and id, the document's content equals
the string bound to "text" in the item's metadata (when one is bound),
the "text" key is excluded from the returned document's metadata, and
every other original metadata key (except the injected "score") keeps
its original value. -/
theorem c5_vector_search_reshape :
    ∀ (s : StoreState) (qv : List Rat) (k : Nat) (f : Option JObj)
      (resp : VectorQueryResponse),
      resp.error = none →
      (∃ l, (similaritySearchVectorWithScore s qv k f resp).2.2
              = Except.ok l)
    ∧ (okList (similaritySearchVectorWithScore s qv k f resp).2.2).map
          Prod.snd
        = (resp.results.getD []).map (fun it => it.score)
    ∧ (okList (similaritySearchVectorWithScore s qv k f resp).2.2).map
          (fun p => p.1.id)
        = (resp.results.getD []).map (fun it => some it.id)
    ∧ (okList (similaritySearchVectorWithScore s qv k f resp).2.2).map
          (fun p => lookupMeta p.1.metadata "text")
        = (resp.results.getD []).map (fun _ => (none : Option JVal))
    ∧ (∀ (i : Nat) (it : VectorItem) (t : String),
        (resp.results.getD [])[i]? = some it →
        lookupMeta (it.metadata.getD []) "text" = some (JVal.str t) →
        ((okList (similaritySearchVectorWithScore s qv k f resp).2.2)[i]?).map
            (fun p => p.1.pageContent)
          = some (JVal.str t))
    ∧ (∀ (key : String), key ≠ "text" → key ≠ "score" →
        (okList (similaritySearchVectorWithScore s qv k f resp).2.2).map
            (fun p => lookupMeta p.1.metadata key)
          = (resp.results.getD []).map
              (fun it => jsLookup (it.metadata.getD []) key)) := by
  intro s qv k f resp herr
  have hout : (similaritySearchVectorWithScore s qv k f resp).2.2
      = Except.ok ((resp.results.getD []).map
          (fun item => (vectorItemDoc item, item.score))) := by
    simp [similaritySearchVectorWithScore, truthyStr, herr]
  have hok : okList (similaritySearchVectorWithScore s qv k f resp).2.2
      = (resp.results.getD []).map
          (fun item => (vectorItemDoc item, item.score)) := by
    rw [hout]; rfl
  refine ⟨⟨_, hout⟩, ?_, ?_, ?_, ?_, ?_⟩
  · rw [hok, List.map_map]; rfl
  · rw [hok, List.map_map]; rfl
  · rw [hok, List.map_map]
    exact map_congr_mem _ _ _ (fun it _ => vectorItemDoc_meta_text it)
  · intro i it t hi htext
    rw [hok, List.getElem?_map, hi]
    simp [vectorItemDoc_content it t htext]
  · intro key h1 h2
    rw [hok, List.map_map]
    exact map_congr_mem _ _ _
      (fun it _ => vectorItemDoc_meta_ne it key h1 h2)

/-- C5 witness: one result item with text "OAuth2 auth" and a "source"
key; the returned pair keeps the score, extracts the content, drops
"text" from the metadata and keeps "source". -/
theorem c5_vector_search_reshape_witness :
    (okList (similaritySearchVectorWithScore
        (mkStore ⟨none, none, none⟩) [(1 : Rat)] 2 none
        ⟨some [⟨"v1", 1, some [("text", JVal.str "OAuth2 auth"),
                               ("source", JVal.str "docs")]⟩],
         none⟩).2.2).map Prod.snd = [(1 : Rat)]
  ∧ (okList (similaritySearchVectorWithScore
        (mkStore ⟨none, none, none⟩) [(1 : Rat)] 2 none
        ⟨some [⟨"v1", 1, some [("text", JVal.str "OAuth2 auth"),
                               ("source", JVal.str "docs")]⟩],
         none⟩).2.2).map (fun p => lookupMeta p.1.metadata "text") = [none]
  ∧ ((okList (similaritySearchVectorWithScore
        (mkStore ⟨none, none, none⟩) [(1 : Rat)] 2 none
        ⟨some [⟨"v1", 1, some [("text", JVal.str "OAuth2 auth"),
                               ("source", JVal.str "docs")]⟩],
         none⟩).2.2)[0]?).map (fun p => p.1.pageContent)
      = some (JVal.str "OAuth2 auth")
  ∧ (okList (similaritySearchVectorWithScore
        (mkStore ⟨none, none, none⟩) [(1 : Rat)] 2 none
        ⟨some [⟨"v1", 1, some [("text", JVal.str "OAuth2 auth"),
                               ("source", JVal.str "docs")]⟩],
         none⟩).2.2).map (fun p => lookupMeta p.1.metadata "source")
      = [some (JVal.str "docs")] := by
  have h := c5_vector_search_reshape
    (mkStore ⟨none, none, none⟩) [(1 : Rat)] 2 none
    ⟨some [⟨"v1", 1, some [("text", JVal.str "OAuth2 auth"),
                           ("source", JVal.str "docs")]⟩],
     none⟩ rfl
  exact ⟨(h.2.1).trans rfl,
    (h.2.2.2.1).trans rfl,
    h.2.2.2.2.1 0
      ⟨"v1", 1, some [("text", JVal.str "OAuth2 auth"),
                      ("source", JVal.str "docs")]⟩
      "OAuth2 auth" rfl rfl,
    (h.2.2.2.2.2 "source" (by decide) (by decide)).trans rfl⟩
